import Mathlib

/-!
Shallow embedding of the calculation core of `src/app/page.tsx`
(BodyCompositionCalculator).  JavaScript numbers are modelled by `JSNum`:
either NaN, a signed infinity, or a finite real.  The arithmetic operations
follow IEEE-754 / ECMAScript semantics on these three shapes (finite
rounding error is abstracted away: finite values are exact reals), which is
what the claims about NaN propagation and clamping depend on.
-/

/-- A JavaScript number: NaN, an infinity (`inf true` is `-Infinity`,
`inf false` is `+Infinity`), or a finite real. -/
inductive JSNum where
  | nan : JSNum
  | inf : Bool → JSNum
  | fin : ℝ → JSNum

namespace JSNum

/-- ECMAScript unary minus. -/
def neg : JSNum → JSNum
  | nan => nan
  | inf s => inf (!s)
  | fin x => fin (-x)

/-- ECMAScript `+` on numbers. -/
def add : JSNum → JSNum → JSNum
  | nan, _ => nan
  | _, nan => nan
  | inf s, inf t => if s = t then inf s else nan
  | inf s, fin _ => inf s
  | fin _, inf t => inf t
  | fin x, fin y => fin (x + y)

/-- ECMAScript `-` on numbers. -/
def sub (a b : JSNum) : JSNum := add a (neg b)

/-- ECMAScript `*` on numbers (with a single zero: the `-0` distinction is
not modelled, matching the source where all products with zero arise from
literal non-negative zeros). -/
noncomputable def mul : JSNum → JSNum → JSNum
  | nan, _ => nan
  | _, nan => nan
  | inf s, inf t => inf (s != t)
  | inf s, fin y => if y = 0 then nan else if 0 < y then inf s else inf (!s)
  | fin x, inf t => if x = 0 then nan else if 0 < x then inf t else inf (!t)
  | fin x, fin y => fin (x * y)

/-- ECMAScript `/` on numbers (single-zero model: division by zero of a
nonzero numerator gives the infinity with the numerator's sign). -/
noncomputable def div : JSNum → JSNum → JSNum
  | nan, _ => nan
  | _, nan => nan
  | inf _, inf _ => nan
  | inf s, fin y => if y < 0 then inf (!s) else inf s
  | fin _, inf _ => fin 0
  | fin x, fin y =>
      if y = 0 then (if x = 0 then nan else if x < 0 then inf true else inf false)
      else fin (x / y)

/-- `Math.log10` applied to a finite real argument: NaN for negative
arguments, `-Infinity` at zero, and the real logarithm otherwise. -/
noncomputable def log10 (x : ℝ) : JSNum :=
  if x < 0 then nan
  else if x = 0 then inf true
  else fin (Real.logb 10 x)

/-- ECMAScript `<` as a Bool (false whenever either side is NaN). -/
noncomputable def ltb : JSNum → JSNum → Bool
  | nan, _ => false
  | _, nan => false
  | inf s, inf t => s && !t
  | inf s, fin _ => s
  | fin _, inf t => !t
  | fin x, fin y => decide (x < y)

/-- ECMAScript `<=` as a Bool (false whenever either side is NaN). -/
noncomputable def leb : JSNum → JSNum → Bool
  | nan, _ => false
  | _, nan => false
  | inf s, inf t => !(!s && t)
  | inf s, fin _ => s
  | fin _, inf t => !t
  | fin x, fin y => decide (x ≤ y)

/-- `Math.min` of two numbers: NaN-propagating. -/
def jmin : JSNum → JSNum → JSNum
  | nan, _ => nan
  | _, nan => nan
  | inf true, _ => inf true
  | _, inf true => inf true
  | inf false, b => b
  | a, inf false => a
  | fin x, fin y => fin (min x y)

/-- `Math.max` of two numbers: NaN-propagating. -/
def jmax : JSNum → JSNum → JSNum
  | nan, _ => nan
  | _, nan => nan
  | inf false, _ => inf false
  | _, inf false => inf false
  | inf true, b => b
  | a, inf true => a
  | fin x, fin y => fin (max x y)

end JSNum

/-- `FormData.gender`. -/
inductive Gender where
  | male : Gender
  | female : Gender
deriving DecidableEq, BEq

/-- `FormData.exerciseLevel`: `'sedentary' | '1-2x' | '3-5x' | 'daily' |
'twice-daily'`. -/
inductive ExerciseLevel where
  | sedentary : ExerciseLevel
  | oneTwo : ExerciseLevel
  | threeFive : ExerciseLevel
  | daily : ExerciseLevel
  | twiceDaily : ExerciseLevel
deriving DecidableEq, BEq

/-- The five goal keys of `GOAL_ADJUSTMENTS`. -/
inductive Goal where
  | maintenance : Goal
  | fatLoss : Goal
  | muscleGain : Goal
  | weightGain : Goal
  | recomposition : Goal
deriving DecidableEq, BEq

/-- The five category labels of `BODY_FAT_CATEGORIES` (the source stores
them as the strings Excellent, Good, Average, Above Average, Obese). -/
inductive Category where
  | excellent : Category
  | good : Category
  | average : Category
  | aboveAverage : Category
  | obese : Category
deriving DecidableEq, BEq

/-- The `FormData` interface.  Form fields are finite numbers. -/
structure FormData where
  gender : Gender
  age : ℝ
  weight : ℝ
  height : ℝ
  neck : ℝ
  waist : ℝ
  hip : ℝ
  exerciseLevel : ExerciseLevel

/-- `EXERCISE_MULTIPLIERS` (the protein multipliers per activity level). -/
def EXERCISE_MULTIPLIERS : ExerciseLevel → ℝ
  | .sedentary => 1.2
  | .oneTwo => 1.5
  | .threeFive => 1.7
  | .daily => 1.95
  | .twiceDaily => 2.2

/-- `ACTIVITY_FACTORS` (the calorie activity factors per activity level). -/
def ACTIVITY_FACTORS : ExerciseLevel → ℝ
  | .sedentary => 1.2
  | .oneTwo => 1.375
  | .threeFive => 1.55
  | .daily => 1.725
  | .twiceDaily => 1.9

/-- One entry of `GOAL_ADJUSTMENTS`. -/
structure GoalAdjustment where
  calorie : ℝ
  protein : ℝ

/-- `GOAL_ADJUSTMENTS`. -/
def GOAL_ADJUSTMENTS : Goal → GoalAdjustment
  | .maintenance => ⟨1.0, 1.0⟩
  | .fatLoss => ⟨0.8, 1.2⟩
  | .muscleGain => ⟨1.1, 1.25⟩
  | .weightGain => ⟨1.2, 1.2⟩
  | .recomposition => ⟨1.0, 1.25⟩

/-- One row of `BODY_FAT_CATEGORIES` (max is a JS number, `Infinity` on the
last row). -/
structure CatEntry where
  max : JSNum
  category : Category
  color : String

/-- `BODY_FAT_CATEGORIES`. -/
def BODY_FAT_CATEGORIES : Gender → List CatEntry
  | .male =>
      [⟨.fin 13, .excellent, "green"⟩,
       ⟨.fin 16, .good, "blue"⟩,
       ⟨.fin 20, .average, "yellow"⟩,
       ⟨.fin 22, .aboveAverage, "orange"⟩,
       ⟨.inf false, .obese, "red"⟩]
  | .female =>
      [⟨.fin 16, .excellent, "green"⟩,
       ⟨.fin 19, .good, "blue"⟩,
       ⟨.fin 28, .average, "yellow"⟩,
       ⟨.fin 33, .aboveAverage, "orange"⟩,
       ⟨.inf false, .obese, "red"⟩]

/-- `calculateBodyFat`: cm→inch conversions then the U.S. Navy formula; the
logarithms may produce NaN or `-Infinity` on degenerate arguments. -/
noncomputable def calculateBodyFat (data : FormData) : JSNum :=
  let waistInches := data.waist / 2.54
  let neckInches := data.neck / 2.54
  let heightInches := data.height / 2.54
  let hipInches := data.hip / 2.54
  match data.gender with
  | .male =>
      (((JSNum.fin 86.010).mul (JSNum.log10 (waistInches - neckInches))).sub
        ((JSNum.fin 70.041).mul (JSNum.log10 heightInches))).add (JSNum.fin 36.76)
  | .female =>
      (((JSNum.fin 163.205).mul
          (JSNum.log10 (waistInches + hipInches - neckInches))).sub
        ((JSNum.fin 97.684).mul (JSNum.log10 heightInches))).sub (JSNum.fin 78.387)

/-- `getBodyFatCategory`: first table row whose `max` the value does not
exceed, else (JS `||` fallback) the last row. -/
noncomputable def getBodyFatCategory (bodyFat : JSNum) (gender : Gender) : CatEntry :=
  let categories := BODY_FAT_CATEGORIES gender
  (categories.find? (fun cat => bodyFat.leb cat.max)).getD
    (categories.getLastD ⟨.inf false, .obese, "red"⟩)

/-- The `{ allowed, message }` record returned by `getAllowedGoals`. -/
structure GoalRestrictions where
  allowed : List Goal
  message : String
deriving DecidableEq

/-- `getAllowedGoals`: the three goal-eligibility bands. -/
noncomputable def getAllowedGoals (bodyFat : JSNum) (gender : Gender) : GoalRestrictions :=
  let isObese := (gender == Gender.male && JSNum.ltb (.fin 22) bodyFat)
      || (gender == Gender.female && JSNum.ltb (.fin 33) bodyFat)
  let isAboveAverage :=
      (gender == Gender.male && JSNum.ltb (.fin 20) bodyFat
        && JSNum.leb bodyFat (.fin 22))
      || (gender == Gender.female && JSNum.ltb (.fin 28) bodyFat
        && JSNum.leb bodyFat (.fin 33))
  if isObese then
    ⟨[.fatLoss],
     "Due to elevated body fat levels, only Fat Loss goal is recommended for health."⟩
  else if isAboveAverage then
    ⟨[.maintenance, .fatLoss, .muscleGain, .recomposition],
     "Weight Gain is not recommended at current body fat levels."⟩
  else
    ⟨[.maintenance, .fatLoss, .muscleGain, .weightGain, .recomposition],
     "All goals are available based on your current body composition."⟩

/-- The `BaseResults` interface.  `bodyFatPercentage`, `leanBodyMass` and
`baseCalories` are computed through JS arithmetic that can see NaN or
infinities; `baseProtein` is a product of finite numbers. -/
structure BaseResults where
  bodyFatPercentage : JSNum
  bodyFatCategory : Category
  leanBodyMass : JSNum
  baseCalories : JSNum
  baseProtein : ℝ
  allowedGoals : List Goal
  restrictionMessage : String

/-- The pure computation inside `calculateBaseStats` (the value passed to
`setBaseResults`). -/
noncomputable def calculateBaseStats (formData : FormData) : BaseResults :=
  let bodyFatPercentage :=
    JSNum.jmax (.fin 0) (JSNum.jmin (.fin 50) (calculateBodyFat formData))
  let leanBodyMass :=
    (JSNum.fin formData.weight).mul
      ((JSNum.fin 1).sub (bodyFatPercentage.div (.fin 100)))
  let bmr := (JSNum.fin 370).add ((JSNum.fin 21.6).mul leanBodyMass)
  let baseCalories := bmr.mul (.fin (ACTIVITY_FACTORS formData.exerciseLevel))
  let baseProtein := formData.weight * EXERCISE_MULTIPLIERS formData.exerciseLevel
  let category := getBodyFatCategory bodyFatPercentage formData.gender
  let goalRestrictions := getAllowedGoals bodyFatPercentage formData.gender
  { bodyFatPercentage := bodyFatPercentage
    bodyFatCategory := category.category
    leanBodyMass := leanBodyMass
    baseCalories := baseCalories
    baseProtein := baseProtein
    allowedGoals := goalRestrictions.allowed
    restrictionMessage := goalRestrictions.message }

/-- The `GoalResults` interface. -/
structure GoalResults where
  goal : Goal
  revisedCalorieTarget : JSNum
  revisedProteinTarget : ℝ

/-- The pure computation inside `calculateGoalResults` (the value passed to
`setGoalResults` once `baseResults` is known non-null). -/
noncomputable def applyGoalAdjustment (base : BaseResults) (goal : Goal) : GoalResults :=
  let goalAdjustment := GOAL_ADJUSTMENTS goal
  { goal := goal
    revisedCalorieTarget := base.baseCalories.mul (.fin goalAdjustment.calorie)
    revisedProteinTarget := base.baseProtein * goalAdjustment.protein }

/-- The goal key strings used by `calculateGoalResults` and `setSelectedGoal`. -/
def goalKey : Goal → String
  | .maintenance => "maintenance"
  | .fatLoss => "fat-loss"
  | .muscleGain => "muscle-gain"
  | .weightGain => "weight-gain"
  | .recomposition => "recomposition"

/-- The component state: `formData`, `baseResults`, `goalResults`,
`selectedGoal` (`none` models React `null`). -/
structure AppState where
  formData : FormData
  baseResults : Option BaseResults
  goalResults : Option GoalResults
  selectedGoal : String

/-- The initial `useState` values of the component. -/
def initialAppState : AppState :=
  { formData :=
      { gender := .male, age := 25, weight := 70, height := 175
        neck := 35, waist := 80, hip := 95, exerciseLevel := .sedentary }
    baseResults := none
    goalResults := none
    selectedGoal := "" }

/-- `handleInputChange`: replaces the form data, leaves results alone. -/
def setFormDataStep (s : AppState) (fd : FormData) : AppState :=
  { s with formData := fd }

/-- The state effect of `calculateBaseStats`: stores the base results and
resets `goalResults` to null and `selectedGoal` to the empty string. -/
noncomputable def calcBaseStatsStep (s : AppState) : AppState :=
  { s with baseResults := some (calculateBaseStats s.formData)
           goalResults := none
           selectedGoal := "" }

/-- The state effect of `calculateGoalResults goal`: early-returns leaving
the state unchanged when `baseResults` is null. -/
noncomputable def calcGoalStep (s : AppState) (goal : Goal) : AppState :=
  match s.baseResults with
  | none => s
  | some base =>
      { s with goalResults := some (applyGoalAdjustment base goal)
               selectedGoal := goalKey goal }

/-- States reachable through the component's event handlers. -/
inductive Reachable : AppState → Prop where
  | init : Reachable initialAppState
  | input : ∀ s fd, Reachable s → Reachable (setFormDataStep s fd)
  | base : ∀ s, Reachable s → Reachable (calcBaseStatsStep s)
  | goal : ∀ s g, Reachable s → Reachable (calcGoalStep s g)

/-!  Specification-side definitions (for refinement comparisons) and
reduction lemmas for the JS arithmetic. -/

/-- The category table of spec §4.2, written as the spec words it: the
first threshold the value does not exceed, boundaries inclusive. -/
noncomputable def specCategory (gender : Gender) (x : ℝ) : Category :=
  match gender with
  | .male =>
      if x ≤ 13 then .excellent
      else if x ≤ 16 then .good
      else if x ≤ 20 then .average
      else if x ≤ 22 then .aboveAverage
      else .obese
  | .female =>
      if x ≤ 16 then .excellent
      else if x ≤ 19 then .good
      else if x ≤ 28 then .average
      else if x ≤ 33 then .aboveAverage
      else .obese

/-- Leanness rank of a category: Excellent < Good < Average <
AboveAverage < Obese. -/
def Category.rank : Category → ℕ
  | .excellent => 0
  | .good => 1
  | .average => 2
  | .aboveAverage => 3
  | .obese => 4

/-- A JS number that is a finite value inside the clamp interval. -/
def inClampRange (v : JSNum) : Prop :=
  ∃ r : ℝ, v = .fin r ∧ 0 ≤ r ∧ r ≤ 50

namespace JSNum

lemma log10_of_pos {x : ℝ} (h : 0 < x) :
    JSNum.log10 x = .fin (Real.logb 10 x) := by
  unfold JSNum.log10
  rw [if_neg (not_lt.mpr h.le), if_neg h.ne']

lemma log10_of_zero {x : ℝ} (h : x = 0) : JSNum.log10 x = .inf true := by
  unfold JSNum.log10
  rw [if_neg (by simp [h]), if_pos h]

lemma log10_of_neg {x : ℝ} (h : x < 0) : JSNum.log10 x = .nan := by
  unfold JSNum.log10
  rw [if_pos h]

lemma mul_fin_fin (x y : ℝ) : (fin x).mul (fin y) = fin (x * y) := rfl

lemma mul_fin_nan (x : ℝ) : (fin x).mul nan = nan := rfl

lemma mul_fin_inf_of_pos {x : ℝ} (t : Bool) (h : 0 < x) :
    (fin x).mul (inf t) = inf t := by
  show (if x = 0 then nan else if 0 < x then inf t else inf (!t)) = inf t
  rw [if_neg h.ne', if_pos h]

lemma add_fin_fin (x y : ℝ) : (fin x).add (fin y) = fin (x + y) := rfl

lemma sub_fin_fin (x y : ℝ) : (fin x).sub (fin y) = fin (x - y) := by
  show fin (x + -y) = fin (x - y)
  rw [← sub_eq_add_neg]

lemma add_nan_left (b : JSNum) : nan.add b = nan := by
  cases b <;> rfl

lemma sub_nan_left (b : JSNum) : nan.sub b = nan := by
  cases b <;> rfl

lemma sub_inf_fin (s : Bool) (y : ℝ) : (inf s).sub (fin y) = inf s := rfl

lemma add_inf_fin (s : Bool) (y : ℝ) : (inf s).add (fin y) = inf s := rfl

lemma div_fin_fin_of_ne {y : ℝ} (x : ℝ) (h : y ≠ 0) :
    (fin x).div (fin y) = fin (x / y) := by
  show (if y = 0 then _ else fin (x / y)) = fin (x / y)
  rw [if_neg h]

lemma jmin_fin_fin (x y : ℝ) : jmin (fin x) (fin y) = fin (min x y) := rfl

lemma jmax_fin_fin (x y : ℝ) : jmax (fin x) (fin y) = fin (max x y) := rfl

lemma jmin_fin_nan (x : ℝ) : jmin (fin x) nan = nan := rfl

lemma jmax_fin_nan (x : ℝ) : jmax (fin x) nan = nan := rfl

lemma jmin_fin_ninf (x : ℝ) : jmin (fin x) (inf true) = inf true := rfl

lemma jmax_fin_ninf (x : ℝ) : jmax (fin x) (inf true) = fin x := rfl

lemma leb_fin_fin (x y : ℝ) : leb (fin x) (fin y) = decide (x ≤ y) := rfl

lemma ltb_fin_fin (x y : ℝ) : ltb (fin x) (fin y) = decide (x < y) := rfl

end JSNum

lemma getBodyFatCategory_fin_eq_spec (g : Gender) (x : ℝ) :
    (getBodyFatCategory (.fin x) g).category = specCategory g x := by
  cases g
  case male =>
    simp only [getBodyFatCategory, BODY_FAT_CATEGORIES, specCategory]
    rcases le_or_lt x 13 with h13 | h13
    · rw [List.find?_cons_of_pos _ (by simpa [JSNum.leb] using h13), if_pos h13]; rfl
    · have n13 := not_le.mpr h13
      rw [List.find?_cons_of_neg _ (by simpa [JSNum.leb] using n13), if_neg n13]
      rcases le_or_lt x 16 with h16 | h16
      · rw [List.find?_cons_of_pos _ (by simpa [JSNum.leb] using h16), if_pos h16]; rfl
      · have n16 := not_le.mpr h16
        rw [List.find?_cons_of_neg _ (by simpa [JSNum.leb] using n16), if_neg n16]
        rcases le_or_lt x 20 with h20 | h20
        · rw [List.find?_cons_of_pos _ (by simpa [JSNum.leb] using h20), if_pos h20]; rfl
        · have n20 := not_le.mpr h20
          rw [List.find?_cons_of_neg _ (by simpa [JSNum.leb] using n20), if_neg n20]
          rcases le_or_lt x 22 with h22 | h22
          · rw [List.find?_cons_of_pos _ (by simpa [JSNum.leb] using h22), if_pos h22]; rfl
          · have n22 := not_le.mpr h22
            rw [List.find?_cons_of_neg _ (by simpa [JSNum.leb] using n22), if_neg n22,
                List.find?_cons_of_pos _ (by simp [JSNum.leb])]
            rfl
  case female =>
    simp only [getBodyFatCategory, BODY_FAT_CATEGORIES, specCategory]
    rcases le_or_lt x 16 with h16 | h16
    · rw [List.find?_cons_of_pos _ (by simpa [JSNum.leb] using h16), if_pos h16]; rfl
    · have n16 := not_le.mpr h16
      rw [List.find?_cons_of_neg _ (by simpa [JSNum.leb] using n16), if_neg n16]
      rcases le_or_lt x 19 with h19 | h19
      · rw [List.find?_cons_of_pos _ (by simpa [JSNum.leb] using h19), if_pos h19]; rfl
      · have n19 := not_le.mpr h19
        rw [List.find?_cons_of_neg _ (by simpa [JSNum.leb] using n19), if_neg n19]
        rcases le_or_lt x 28 with h28 | h28
        · rw [List.find?_cons_of_pos _ (by simpa [JSNum.leb] using h28), if_pos h28]; rfl
        · have n28 := not_le.mpr h28
          rw [List.find?_cons_of_neg _ (by simpa [JSNum.leb] using n28), if_neg n28]
          rcases le_or_lt x 33 with h33 | h33
          · rw [List.find?_cons_of_pos _ (by simpa [JSNum.leb] using h33), if_pos h33]; rfl
          · have n33 := not_le.mpr h33
            rw [List.find?_cons_of_neg _ (by simpa [JSNum.leb] using n33), if_neg n33,
                List.find?_cons_of_pos _ (by simp [JSNum.leb])]
            rfl

lemma specCategory_rank_mono (g : Gender) {x y : ℝ} (hxy : x ≤ y) :
    (specCategory g x).rank ≤ (specCategory g y).rank := by
  cases g <;>
    (simp only [specCategory]
     split_ifs <;> simp only [Category.rank] <;>
       first
       | omega
       | (exfalso; push_neg at *; linarith))

lemma gender_beq_refl (g : Gender) : (g == g) = true := by cases g <;> rfl

lemma male_beq_female : (Gender.male == Gender.female) = false := rfl

lemma female_beq_male : (Gender.female == Gender.male) = false := rfl

lemma getAllowedGoals_male_obese {x : ℝ} (h : 22 < x) :
    getAllowedGoals (.fin x) .male =
      ⟨[.fatLoss],
       "Due to elevated body fat levels, only Fat Loss goal is recommended for health."⟩ := by
  simp [getAllowedGoals, JSNum.ltb, gender_beq_refl, male_beq_female, h]

lemma getAllowedGoals_male_above {x : ℝ} (h20 : 20 < x) (h22 : x ≤ 22) :
    getAllowedGoals (.fin x) .male =
      ⟨[.maintenance, .fatLoss, .muscleGain, .recomposition],
       "Weight Gain is not recommended at current body fat levels."⟩ := by
  simp [getAllowedGoals, JSNum.ltb, JSNum.leb, gender_beq_refl, male_beq_female, h20, h22, not_lt.mpr h22]

lemma getAllowedGoals_male_free {x : ℝ} (h20 : x ≤ 20) :
    getAllowedGoals (.fin x) .male =
      ⟨[.maintenance, .fatLoss, .muscleGain, .weightGain, .recomposition],
       "All goals are available based on your current body composition."⟩ := by
  have h22 : ¬ (22 < x) := by push_neg; linarith
  simp [getAllowedGoals, JSNum.ltb, JSNum.leb, gender_beq_refl, male_beq_female, not_lt.mpr h20, h22]

lemma getAllowedGoals_female_obese {x : ℝ} (h : 33 < x) :
    getAllowedGoals (.fin x) .female =
      ⟨[.fatLoss],
       "Due to elevated body fat levels, only Fat Loss goal is recommended for health."⟩ := by
  simp [getAllowedGoals, JSNum.ltb, gender_beq_refl, female_beq_male, h]

lemma getAllowedGoals_female_above {x : ℝ} (h28 : 28 < x) (h33 : x ≤ 33) :
    getAllowedGoals (.fin x) .female =
      ⟨[.maintenance, .fatLoss, .muscleGain, .recomposition],
       "Weight Gain is not recommended at current body fat levels."⟩ := by
  simp [getAllowedGoals, JSNum.ltb, JSNum.leb, gender_beq_refl, female_beq_male,
        h28, h33, not_lt.mpr h33]

lemma getAllowedGoals_female_free {x : ℝ} (h28 : x ≤ 28) :
    getAllowedGoals (.fin x) .female =
      ⟨[.maintenance, .fatLoss, .muscleGain, .weightGain, .recomposition],
       "All goals are available based on your current body composition."⟩ := by
  have h33 : ¬ (33 < x) := by push_neg; linarith
  simp [getAllowedGoals, JSNum.ltb, JSNum.leb, gender_beq_refl, female_beq_male,
        not_lt.mpr h28, h33]

lemma calculateBodyFat_male_formula (m : FormData) (hg : m.gender = .male)
    (harg : 0 < m.waist / 2.54 - m.neck / 2.54) (hh : 0 < m.height) :
    calculateBodyFat m =
      .fin (86.010 * Real.logb 10 (m.waist / 2.54 - m.neck / 2.54)
        - 70.041 * Real.logb 10 (m.height / 2.54) + 36.76) := by
  have hhi : 0 < m.height / 2.54 := div_pos hh (by norm_num)
  simp only [calculateBodyFat, hg]
  rw [JSNum.log10_of_pos harg, JSNum.log10_of_pos hhi,
      JSNum.mul_fin_fin, JSNum.mul_fin_fin, JSNum.sub_fin_fin, JSNum.add_fin_fin]

lemma calculateBodyFat_female_formula (m : FormData) (hg : m.gender = .female)
    (harg : 0 < m.waist / 2.54 + m.hip / 2.54 - m.neck / 2.54) (hh : 0 < m.height) :
    calculateBodyFat m =
      .fin (163.205 * Real.logb 10 (m.waist / 2.54 + m.hip / 2.54 - m.neck / 2.54)
        - 97.684 * Real.logb 10 (m.height / 2.54) - 78.387) := by
  have hhi : 0 < m.height / 2.54 := div_pos hh (by norm_num)
  simp only [calculateBodyFat, hg]
  rw [JSNum.log10_of_pos harg, JSNum.log10_of_pos hhi,
      JSNum.mul_fin_fin, JSNum.mul_fin_fin, JSNum.sub_fin_fin, JSNum.sub_fin_fin]

lemma calculateBodyFat_male_nan (m : FormData) (hg : m.gender = .male)
    (h : m.waist - m.neck < 0) : calculateBodyFat m = .nan := by
  have harg : m.waist / 2.54 - m.neck / 2.54 < 0 := by
    rw [div_sub_div_same]
    exact div_neg_of_neg_of_pos h (by norm_num)
  simp only [calculateBodyFat, hg]
  rw [JSNum.log10_of_neg harg, JSNum.mul_fin_nan, JSNum.sub_nan_left,
      JSNum.add_nan_left]

lemma calculateBodyFat_female_nan (m : FormData) (hg : m.gender = .female)
    (h : m.waist + m.hip - m.neck < 0) : calculateBodyFat m = .nan := by
  have harg : m.waist / 2.54 + m.hip / 2.54 - m.neck / 2.54 < 0 := by
    rw [div_add_div_same, div_sub_div_same]
    exact div_neg_of_neg_of_pos h (by norm_num)
  simp only [calculateBodyFat, hg]
  rw [JSNum.log10_of_neg harg, JSNum.mul_fin_nan, JSNum.sub_nan_left,
      JSNum.sub_nan_left]

lemma calculateBodyFat_male_ninf (m : FormData) (hg : m.gender = .male)
    (h : m.waist - m.neck = 0) (hh : 0 < m.height) : calculateBodyFat m = .inf true := by
  have harg : m.waist / 2.54 - m.neck / 2.54 = 0 := by
    rw [div_sub_div_same, h]; norm_num
  have hhi : 0 < m.height / 2.54 := div_pos hh (by norm_num)
  simp only [calculateBodyFat, hg]
  rw [JSNum.log10_of_zero harg, JSNum.log10_of_pos hhi,
      JSNum.mul_fin_inf_of_pos _ (by norm_num), JSNum.mul_fin_fin,
      JSNum.sub_inf_fin, JSNum.add_inf_fin]

lemma calculateBodyFat_female_ninf (m : FormData) (hg : m.gender = .female)
    (h : m.waist + m.hip - m.neck = 0) (hh : 0 < m.height) :
    calculateBodyFat m = .inf true := by
  have harg : m.waist / 2.54 + m.hip / 2.54 - m.neck / 2.54 = 0 := by
    rw [div_add_div_same, div_sub_div_same, h]; norm_num
  have hhi : 0 < m.height / 2.54 := div_pos hh (by norm_num)
  simp only [calculateBodyFat, hg]
  rw [JSNum.log10_of_zero harg, JSNum.log10_of_pos hhi,
      JSNum.mul_fin_inf_of_pos _ (by norm_num), JSNum.mul_fin_fin,
      JSNum.sub_inf_fin, JSNum.sub_inf_fin]

lemma baseStats_bodyFat (m : FormData) :
    (calculateBaseStats m).bodyFatPercentage =
      JSNum.jmax (.fin 0) (JSNum.jmin (.fin 50) (calculateBodyFat m)) := rfl

lemma clamp_fin (r : ℝ) :
    JSNum.jmax (.fin 0) (JSNum.jmin (.fin 50) (.fin r)) = .fin (max 0 (min 50 r)) := rfl

lemma clamp_nan : JSNum.jmax (.fin 0) (JSNum.jmin (.fin 50) .nan) = .nan := rfl

lemma clamp_ninf :
    JSNum.jmax (.fin 0) (JSNum.jmin (.fin 50) (.inf true)) = .fin 0 := rfl

/-!  Claim theorems. -/

/-- C1 counterexample: on the spec's own degenerate female scenario
(waist 30cm, hip 30cm, neck 70cm) the logarithm argument is negative, the
body-fat value is NaN, and the clamp `Math.max(0, Math.min(50, NaN))`
propagates the NaN instead of yielding 0, because both `Math.min` and
`Math.max` return NaN as soon as one argument is NaN. -/
theorem bodyFat_nan_clamp_not_zero :
    (calculateBaseStats
        ⟨.female, 25, 70, 175, 70, 30, 30, .sedentary⟩).bodyFatPercentage = JSNum.nan
  ∧ JSNum.nan ≠ JSNum.fin 0 := by
  constructor
  · rw [baseStats_bodyFat, calculateBodyFat_female_nan _ rfl (by norm_num), clamp_nan]
  · intro h
    exact JSNum.noConfusion h

/-- C1 (amended): for a strictly negative logarithm argument (male:
waist < neck; female: waist + hip < neck) the NaN produced by `log10`
propagates through the clamp, so `bodyFatPercentage` is NaN — not 0; the
clamp yields 0 only in the boundary case where the argument is exactly
zero, where `log10` returns `-Infinity`. -/
theorem bodyFat_degenerate_behavior (m : FormData) :
    (m.gender = .male → m.waist - m.neck < 0 →
        (calculateBaseStats m).bodyFatPercentage = JSNum.nan)
  ∧ (m.gender = .female → m.waist + m.hip - m.neck < 0 →
        (calculateBaseStats m).bodyFatPercentage = JSNum.nan)
  ∧ (m.gender = .male → m.waist - m.neck = 0 → 0 < m.height →
        (calculateBaseStats m).bodyFatPercentage = JSNum.fin 0)
  ∧ (m.gender = .female → m.waist + m.hip - m.neck = 0 → 0 < m.height →
        (calculateBaseStats m).bodyFatPercentage = JSNum.fin 0) := by
  refine ⟨fun hg h => ?_, fun hg h => ?_, fun hg h hh => ?_, fun hg h hh => ?_⟩
  · rw [baseStats_bodyFat, calculateBodyFat_male_nan m hg h, clamp_nan]
  · rw [baseStats_bodyFat, calculateBodyFat_female_nan m hg h, clamp_nan]
  · rw [baseStats_bodyFat, calculateBodyFat_male_ninf m hg h hh, clamp_ninf]
  · rw [baseStats_bodyFat, calculateBodyFat_female_ninf m hg h hh, clamp_ninf]

/-- Witness for the amended C1 theorem at the boundary case
waist + hip = neck. -/
theorem bodyFat_degenerate_behavior_witness :
    (calculateBaseStats
        ⟨.female, 25, 70, 175, 60, 30, 30, .sedentary⟩).bodyFatPercentage
      = JSNum.fin 0 :=
  (bodyFat_degenerate_behavior _).2.2.2 rfl (by norm_num) (by norm_num)

/-- C2 counterexample: a Measurement with every numeric field positive
(female: neck 50cm, waist 20cm, hip 20cm) whose stored bodyFatPercentage is
NaN and therefore not a finite value in [0, 50]. -/
theorem clamp_invariant_fails_on_nan :
    (0:ℝ) < 25 ∧ (0:ℝ) < 70 ∧ (0:ℝ) < 175 ∧ (0:ℝ) < 50 ∧ (0:ℝ) < 20 ∧ (0:ℝ) < 20
  ∧ (calculateBaseStats
        ⟨.female, 25, 70, 175, 50, 20, 20, .sedentary⟩).bodyFatPercentage = JSNum.nan
  ∧ ¬ inClampRange (JSNum.nan) := by
  refine ⟨by norm_num, by norm_num, by norm_num, by norm_num, by norm_num, by norm_num,
    ?_, ?_⟩
  · rw [baseStats_bodyFat, calculateBodyFat_female_nan _ rfl (by norm_num), clamp_nan]
  · rintro ⟨r, hr, -⟩
    exact JSNum.noConfusion hr

/-- C2 (amended): for every Measurement with positive fields whose
logarithm argument is nonnegative, the stored bodyFatPercentage is a finite
value in the closed interval [0, 50]. -/
theorem clamp_invariant (m : FormData)
    (hpos : 0 < m.age ∧ 0 < m.weight ∧ 0 < m.height ∧ 0 < m.neck ∧ 0 < m.waist
      ∧ 0 < m.hip)
    (hm : m.gender = .male → 0 ≤ m.waist - m.neck)
    (hf : m.gender = .female → 0 ≤ m.waist + m.hip - m.neck) :
    inClampRange (calculateBaseStats m).bodyFatPercentage := by
  have hh : 0 < m.height := hpos.2.2.1
  cases hg : m.gender
  case male =>
    rcases (hm hg).lt_or_eq with hlt | heq
    · have harg : 0 < m.waist / 2.54 - m.neck / 2.54 := by
        rw [div_sub_div_same]
        exact div_pos hlt (by norm_num)
      rw [baseStats_bodyFat, calculateBodyFat_male_formula m hg harg hh, clamp_fin]
      exact ⟨_, rfl, le_max_left 0 _, max_le (by norm_num) (min_le_left 50 _)⟩
    · rw [baseStats_bodyFat, calculateBodyFat_male_ninf m hg heq.symm hh, clamp_ninf]
      exact ⟨0, rfl, le_refl 0, by norm_num⟩
  case female =>
    rcases (hf hg).lt_or_eq with hlt | heq
    · have harg : 0 < m.waist / 2.54 + m.hip / 2.54 - m.neck / 2.54 := by
        rw [div_add_div_same, div_sub_div_same]
        exact div_pos hlt (by norm_num)
      rw [baseStats_bodyFat, calculateBodyFat_female_formula m hg harg hh, clamp_fin]
      exact ⟨_, rfl, le_max_left 0 _, max_le (by norm_num) (min_le_left 50 _)⟩
    · rw [baseStats_bodyFat, calculateBodyFat_female_ninf m hg heq.symm hh, clamp_ninf]
      exact ⟨0, rfl, le_refl 0, by norm_num⟩

/-- Witness for the amended C2 theorem on the spec's standard male
scenario. -/
theorem clamp_invariant_witness :
    inClampRange
      (calculateBaseStats ⟨.male, 25, 70, 175, 35, 80, 95, .sedentary⟩).bodyFatPercentage :=
  clamp_invariant _
    ⟨by norm_num, by norm_num, by norm_num, by norm_num, by norm_num, by norm_num⟩
    (fun _ => by norm_num) (fun h => by exact absurd h (by simp))

/-- C3: on its mathematical domain (positive logarithm arguments), the
body-fat estimator converts centimeters to inches by dividing by 2.54 and
returns exactly the gender-specific U.S. Navy formula. -/
theorem calculateBodyFat_formula (m : FormData) (hh : 0 < m.height) :
    (m.gender = .male → 0 < m.waist / 2.54 - m.neck / 2.54 →
      calculateBodyFat m =
        .fin (86.010 * Real.logb 10 (m.waist / 2.54 - m.neck / 2.54)
          - 70.041 * Real.logb 10 (m.height / 2.54) + 36.76))
  ∧ (m.gender = .female → 0 < m.waist / 2.54 + m.hip / 2.54 - m.neck / 2.54 →
      calculateBodyFat m =
        .fin (163.205 * Real.logb 10 (m.waist / 2.54 + m.hip / 2.54 - m.neck / 2.54)
          - 97.684 * Real.logb 10 (m.height / 2.54) - 78.387)) :=
  ⟨fun hg harg => calculateBodyFat_male_formula m hg harg hh,
   fun hg harg => calculateBodyFat_female_formula m hg harg hh⟩

/-- Witness for C3 on the spec's standard male scenario. -/
theorem calculateBodyFat_formula_witness :
    calculateBodyFat ⟨.male, 25, 70, 175, 35, 80, 95, .sedentary⟩ =
      .fin (86.010 * Real.logb 10 ((80:ℝ) / 2.54 - 35 / 2.54)
        - 70.041 * Real.logb 10 ((175:ℝ) / 2.54) + 36.76) :=
  (calculateBodyFat_formula _ (by norm_num)).1 rfl (by norm_num)

/-- C4: the goal-eligibility gate is exactly the three bands: the Obese
band permits only FatLoss, the AboveAverage band permits everything except
WeightGain, otherwise all five goals are permitted; the returned allowed
set is always one of these three fixed sets. -/
theorem getAllowedGoals_three_bands (g : Gender) (x : ℝ) :
    ((g = .male ∧ 22 < x) ∨ (g = .female ∧ 33 < x) →
      getAllowedGoals (.fin x) g =
        ⟨[.fatLoss],
         "Due to elevated body fat levels, only Fat Loss goal is recommended for health."⟩)
  ∧ ((g = .male ∧ 20 < x ∧ x ≤ 22) ∨ (g = .female ∧ 28 < x ∧ x ≤ 33) →
      getAllowedGoals (.fin x) g =
        ⟨[.maintenance, .fatLoss, .muscleGain, .recomposition],
         "Weight Gain is not recommended at current body fat levels."⟩)
  ∧ (¬((g = .male ∧ 22 < x) ∨ (g = .female ∧ 33 < x)) →
     ¬((g = .male ∧ 20 < x ∧ x ≤ 22) ∨ (g = .female ∧ 28 < x ∧ x ≤ 33)) →
      getAllowedGoals (.fin x) g =
        ⟨[.maintenance, .fatLoss, .muscleGain, .weightGain, .recomposition],
         "All goals are available based on your current body composition."⟩)
  ∧ ((getAllowedGoals (.fin x) g).allowed = [.fatLoss]
      ∨ (getAllowedGoals (.fin x) g).allowed
          = [.maintenance, .fatLoss, .muscleGain, .recomposition]
      ∨ (getAllowedGoals (.fin x) g).allowed
          = [.maintenance, .fatLoss, .muscleGain, .weightGain, .recomposition]) := by
  refine ⟨?_, ?_, ?_, ?_⟩
  · rintro (⟨hg, hx⟩ | ⟨hg, hx⟩) <;> subst hg
    · exact getAllowedGoals_male_obese hx
    · exact getAllowedGoals_female_obese hx
  · rintro (⟨hg, h1, h2⟩ | ⟨hg, h1, h2⟩) <;> subst hg
    · exact getAllowedGoals_male_above h1 h2
    · exact getAllowedGoals_female_above h1 h2
  · intro hno hna
    cases g
    case male =>
      have h22 : ¬ 22 < x := fun h => hno (Or.inl ⟨rfl, h⟩)
      have h20 : x ≤ 20 := by
        by_contra h
        push_neg at h
        exact hna (Or.inl ⟨rfl, h, not_lt.mp h22⟩)
      exact getAllowedGoals_male_free h20
    case female =>
      have h33 : ¬ 33 < x := fun h => hno (Or.inr ⟨rfl, h⟩)
      have h28 : x ≤ 28 := by
        by_contra h
        push_neg at h
        exact hna (Or.inr ⟨rfl, h, not_lt.mp h33⟩)
      exact getAllowedGoals_female_free h28
  · cases g
    case male =>
      by_cases h22 : 22 < x
      · exact Or.inl (by rw [getAllowedGoals_male_obese h22])
      · by_cases h20 : 20 < x
        · exact Or.inr (Or.inl (by rw [getAllowedGoals_male_above h20 (not_lt.mp h22)]))
        · exact Or.inr (Or.inr (by rw [getAllowedGoals_male_free (not_lt.mp h20)]))
    case female =>
      by_cases h33 : 33 < x
      · exact Or.inl (by rw [getAllowedGoals_female_obese h33])
      · by_cases h28 : 28 < x
        · exact Or.inr (Or.inl (by rw [getAllowedGoals_female_above h28 (not_lt.mp h33)]))
        · exact Or.inr (Or.inr (by rw [getAllowedGoals_female_free (not_lt.mp h28)]))

/-- Witness for C4: a male value in the Obese band permits only FatLoss. -/
theorem getAllowedGoals_three_bands_witness :
    getAllowedGoals (.fin 25) .male =
      ⟨[.fatLoss],
       "Due to elevated body fat levels, only Fat Loss goal is recommended for health."⟩ :=
  (getAllowedGoals_three_bands .male 25).1 (Or.inl ⟨rfl, by norm_num⟩)

/-- C5: the category classifier agrees with the ordered threshold table of
the spec, taking the first threshold the value does not exceed, with the
upper bound of each band inclusive. -/
theorem getBodyFatCategory_matches_table (g : Gender) (x : ℝ) :
    (getBodyFatCategory (.fin x) g).category = specCategory g x :=
  getBodyFatCategory_fin_eq_spec g x

lemma baseStats_lean (m : FormData) :
    (calculateBaseStats m).leanBodyMass =
      (JSNum.fin m.weight).mul
        ((JSNum.fin 1).sub
          (((calculateBaseStats m).bodyFatPercentage).div (.fin 100))) := rfl

lemma baseStats_cal (m : FormData) :
    (calculateBaseStats m).baseCalories =
      ((JSNum.fin 370).add
          ((JSNum.fin 21.6).mul (calculateBaseStats m).leanBodyMass)).mul
        (.fin (ACTIVITY_FACTORS m.exerciseLevel)) := rfl

/-- C6: given the clamped body-fat percent, the baseline calculator follows
lean mass, Katch-McArdle calories with the activity-factor table, and
protein with the separate exercise-multiplier table; the two five-entry
tables hold exactly the specified values and are not the same table. -/
theorem baseStats_formulas (m : FormData) (b : ℝ)
    (hb : (calculateBaseStats m).bodyFatPercentage = .fin b) :
    (calculateBaseStats m).leanBodyMass = .fin (m.weight * (1 - b / 100))
  ∧ (calculateBaseStats m).baseCalories =
      .fin ((370 + 21.6 * (m.weight * (1 - b / 100))) * ACTIVITY_FACTORS m.exerciseLevel)
  ∧ (calculateBaseStats m).baseProtein = m.weight * EXERCISE_MULTIPLIERS m.exerciseLevel
  ∧ (ACTIVITY_FACTORS .sedentary = 1.2 ∧ ACTIVITY_FACTORS .oneTwo = 1.375
      ∧ ACTIVITY_FACTORS .threeFive = 1.55 ∧ ACTIVITY_FACTORS .daily = 1.725
      ∧ ACTIVITY_FACTORS .twiceDaily = 1.9)
  ∧ (EXERCISE_MULTIPLIERS .sedentary = 1.2 ∧ EXERCISE_MULTIPLIERS .oneTwo = 1.5
      ∧ EXERCISE_MULTIPLIERS .threeFive = 1.7 ∧ EXERCISE_MULTIPLIERS .daily = 1.95
      ∧ EXERCISE_MULTIPLIERS .twiceDaily = 2.2)
  ∧ ACTIVITY_FACTORS .oneTwo ≠ EXERCISE_MULTIPLIERS .oneTwo := by
  have hlean : (calculateBaseStats m).leanBodyMass = .fin (m.weight * (1 - b / 100)) := by
    rw [baseStats_lean, hb, JSNum.div_fin_fin_of_ne b (by norm_num),
        JSNum.sub_fin_fin, JSNum.mul_fin_fin]
  refine ⟨hlean, ?_, rfl, ⟨rfl, rfl, rfl, rfl, rfl⟩, ⟨rfl, rfl, rfl, rfl, rfl⟩, ?_⟩
  · rw [baseStats_cal, hlean, JSNum.mul_fin_fin, JSNum.add_fin_fin, JSNum.mul_fin_fin]
  · simp only [ACTIVITY_FACTORS, EXERCISE_MULTIPLIERS]
    norm_num

/-- Witness for C6 at a male input where waist = neck, so the clamped
body-fat percent is exactly 0. -/
theorem baseStats_formulas_witness :
    (calculateBaseStats ⟨.male, 25, 70, 175, 40, 40, 95, .sedentary⟩).leanBodyMass
      = .fin ((70:ℝ) * (1 - 0 / 100)) :=
  (baseStats_formulas _ 0
    (by rw [baseStats_bodyFat,
            calculateBodyFat_male_ninf _ rfl (by norm_num) (by norm_num), clamp_ninf])).1

/-- C7: the goal adjustment multiplies baseCalories and baseProteinG by
the per-goal pair from the fixed table, the two multipliers applied
independently, so the target-to-base ratios recover the multipliers. -/
theorem goalAdjustment_multipliers (base : BaseResults) (goal : Goal) (b : ℝ)
    (hb : base.baseCalories = .fin b) :
    (applyGoalAdjustment base goal).goal = goal
  ∧ (applyGoalAdjustment base goal).revisedCalorieTarget
      = .fin (b * (GOAL_ADJUSTMENTS goal).calorie)
  ∧ (applyGoalAdjustment base goal).revisedProteinTarget
      = base.baseProtein * (GOAL_ADJUSTMENTS goal).protein
  ∧ (b ≠ 0 → b * (GOAL_ADJUSTMENTS goal).calorie / b = (GOAL_ADJUSTMENTS goal).calorie)
  ∧ (base.baseProtein ≠ 0 →
      base.baseProtein * (GOAL_ADJUSTMENTS goal).protein / base.baseProtein
        = (GOAL_ADJUSTMENTS goal).protein)
  ∧ (GOAL_ADJUSTMENTS .maintenance = ⟨1.0, 1.0⟩
      ∧ GOAL_ADJUSTMENTS .fatLoss = ⟨0.8, 1.2⟩
      ∧ GOAL_ADJUSTMENTS .muscleGain = ⟨1.1, 1.25⟩
      ∧ GOAL_ADJUSTMENTS .weightGain = ⟨1.2, 1.2⟩
      ∧ GOAL_ADJUSTMENTS .recomposition = ⟨1.0, 1.25⟩) := by
  refine ⟨rfl, ?_, rfl, fun hb0 => mul_div_cancel_left₀ _ hb0,
    fun hp0 => mul_div_cancel_left₀ _ hp0, rfl, rfl, rfl, rfl, rfl⟩
  have : (applyGoalAdjustment base goal).revisedCalorieTarget
      = base.baseCalories.mul (.fin (GOAL_ADJUSTMENTS goal).calorie) := rfl
  rw [this, hb, JSNum.mul_fin_fin]

/-- Witness for C7 at a concrete base result with 2000 base calories. -/
theorem goalAdjustment_multipliers_witness :
    (applyGoalAdjustment
        ⟨.fin 20, .average, .fin 57, .fin 2000, 84, [.maintenance], "m"⟩
        .fatLoss).revisedCalorieTarget
      = .fin (2000 * (GOAL_ADJUSTMENTS .fatLoss).calorie) :=
  (goalAdjustment_multipliers _ .fatLoss 2000 rfl).2.1

/-- C8: classification is monotone in body fat: for x ≤ y with gender
fixed, the category of y is never leaner than that of x in the order
Excellent < Good < Average < AboveAverage < Obese. -/
theorem category_monotone (g : Gender) (x y : ℝ) (hxy : x ≤ y) :
    ((getBodyFatCategory (.fin x) g).category).rank
      ≤ ((getBodyFatCategory (.fin y) g).category).rank := by
  rw [getBodyFatCategory_fin_eq_spec, getBodyFatCategory_fin_eq_spec]
  exact specCategory_rank_mono g hxy

/-- Witness for C8. -/
theorem category_monotone_witness :
    ((getBodyFatCategory (.fin 10) .male).category).rank
      ≤ ((getBodyFatCategory (.fin 21) .male).category).rank :=
  category_monotone .male 10 21 (by norm_num)

/-- C9: for male inputs the hip measurement influences nothing: two male
measurements that agree on every field except hip give the same body-fat
value and the same entire base result. -/
theorem male_hip_noninterference (m1 m2 : FormData)
    (hg : m1.gender = .male) (hgender : m2.gender = m1.gender)
    (hage : m2.age = m1.age) (hw : m2.weight = m1.weight)
    (hht : m2.height = m1.height) (hn : m2.neck = m1.neck)
    (hwa : m2.waist = m1.waist) (hex : m2.exerciseLevel = m1.exerciseLevel) :
    calculateBodyFat m1 = calculateBodyFat m2
  ∧ calculateBaseStats m1 = calculateBaseStats m2 := by
  obtain ⟨g1, a1, w1, h1, n1, wa1, hip1, e1⟩ := m1
  obtain ⟨g2, a2, w2, h2, n2, wa2, hip2, e2⟩ := m2
  simp only at hg hgender hage hw hht hn hwa hex
  subst hg hgender hage hw hht hn hwa hex
  exact ⟨rfl, rfl⟩

/-- Witness for C9: two concrete male inputs differing only in hip. -/
theorem male_hip_noninterference_witness :
    calculateBodyFat ⟨.male, 25, 70, 175, 35, 80, 95, .daily⟩
      = calculateBodyFat ⟨.male, 25, 70, 175, 35, 80, 120, .daily⟩
  ∧ calculateBaseStats ⟨.male, 25, 70, 175, 35, 80, 95, .daily⟩
      = calculateBaseStats ⟨.male, 25, 70, 175, 35, 80, 120, .daily⟩ :=
  male_hip_noninterference _ _ rfl rfl rfl rfl rfl rfl rfl rfl

/-- C10: recomputing base stats always nulls out the goal results and the
selected goal, selecting a goal is a no-op while baseResults is null, and
hence in every reachable state a non-null goalResults implies a non-null
baseResults. -/
theorem goal_results_never_outlive_base :
    (∀ s : AppState, (calcBaseStatsStep s).goalResults = none
        ∧ (calcBaseStatsStep s).selectedGoal = "")
  ∧ (∀ (s : AppState) (g : Goal), s.baseResults = none → calcGoalStep s g = s)
  ∧ (∀ s : AppState, Reachable s → s.goalResults ≠ none → s.baseResults ≠ none) := by
  refine ⟨fun s => ⟨rfl, rfl⟩, ?_, ?_⟩
  · intro s g hb
    simp [calcGoalStep, hb]
  · intro s hs
    induction hs with
    | init => exact fun h => absurd rfl h
    | input s fd _ ih => exact ih
    | base s _ _ => exact fun _ => by simp [calcBaseStatsStep]
    | goal s g hr ih =>
        cases hb : s.baseResults with
        | none => simpa [calcGoalStep, hb] using ih
        | some b =>
            intro _
            simp [calcGoalStep, hb]

/-- Witness for C10: selecting a goal in the initial state (null
baseResults) changes nothing. -/
theorem goal_results_never_outlive_base_witness :
    calcGoalStep initialAppState .maintenance = initialAppState :=
  goal_results_never_outlive_base.2.1 initialAppState .maintenance rfl
